import Mathlib

/-!
A shallow embedding of the protocol decoder in src/parser.rs of
mahjong_helper_majsoul_hudsucker, together with theorems about it.

Byte buffers are modelled as List Nat (each element a byte value).
Machine integers (usize) are modelled as Nat with explicit reductions
mod 2 ^ 64 where the source's arithmetic can overflow.  Fallible Rust
code returning anyhow::Result is modelled with Except PErr; a Rust
panic (out-of-bounds index, failed assert!) is modelled by the
distinguished error constructor PErr.panicked, since a panic is an
outcome observably different from returning an Err value.

External library collaborators (prost_reflect's DescriptorPool and
DynamicMessage decoding, serde serialization, the base64 crate) are
modelled as an abstract environment (structure Libs) of functions, as
the specification treats them as black boxes; everything written in
parser.rs itself is translated directly.
-/

namespace Liqi

/-- Outcome of fallible code: `err` models a returned `anyhow::Error`
(from ensure!/bail!/anyhow! or a propagated library error), `panicked`
models a Rust panic. -/
inductive PErr where
  | err (msg : String)
  | panicked (msg : String)
deriving DecidableEq

/-- enum MessageType (parser.rs lines 11-16). -/
inductive MessageType where
  | Notify
  | Request
  | Response
deriving DecidableEq

/-- A JSON-like structured value, modelling serde_json::Value.  Objects
are ordered association lists without duplicate keys, as produced by
serde_json's map type. -/
inductive JsonValue where
  | null
  | bool (b : Bool)
  | num (n : Int)
  | str (s : String)
  | arr (xs : List JsonValue)
  | obj (fields : List (String × JsonValue))

/-- Association-list field lookup, modelling serde_json Map::get. -/
def lookupField : List (String × JsonValue) → String → Option JsonValue
  | [], _ => none
  | (k', v) :: rest, k => if k' = k then some v else lookupField rest k

/-- serde_json Value::get(key): Some only on objects that carry the key. -/
def JsonValue.getKey : JsonValue → String → Option JsonValue
  | .obj fs, k => lookupField fs k
  | _, _ => none

/-- serde_json Value::as_str. -/
def JsonValue.as_str : JsonValue → Option String
  | .str s => some s
  | _ => none

/-- serde_json indexing value[key]: Null on a missing key or a
non-object, never a panic. -/
def JsonValue.idx : JsonValue → String → JsonValue
  | .obj fs, k => (lookupField fs k).getD .null
  | _, _ => .null

/-- serde_json Map::insert: replaces the value in place when the key is
present, otherwise appends the binding. -/
def insertField : List (String × JsonValue) → String → JsonValue → List (String × JsonValue)
  | [], k, v => [(k, v)]
  | (k', v') :: rest, k, v =>
    if k' = k then (k, v) :: rest else (k', v') :: insertField rest k v

/-- as_object_mut followed by insert (parser.rs lines 104-107): fails
with None when the value is not an object. -/
def JsonValue.objInsert : JsonValue → String → JsonValue → Option JsonValue
  | .obj fs, k, v => some (.obj (insertField fs k v))
  | _, _, _ => none

/-- One iteration step of parse_var_int (parser.rs lines 218-232),
recursing on the suffix of the buffer that starts at the loop's current
index; returns the accumulated value and the number of bytes consumed.
buf[i] & 0x7f is b % 128; buf[i] >> 7 == 0 is b / 128 = 0.  The usize
accumulation `data += chunk << shift` is modelled with release-mode
Rust semantics: the shift amount is reduced mod 64 and the sum mod
2 ^ 64 (the source has no width check, so a varint longer than ten
bytes would overflow; none of the inputs below reaches that region). -/
def parse_var_int_aux : List Nat → Nat → Nat → Nat × Nat
  | [], data, _ => (data, 0)
  | b :: rest, data, shift =>
    let data' := (data + (b % 128) <<< (shift % 64)) % 2 ^ 64
    if b / 128 = 0 then (data', 1)
    else
      let r := parse_var_int_aux rest data' (shift + 7)
      (r.1, r.2 + 1)

/-- parse_var_int (parser.rs lines 218-232): reads a little-endian
base-128 varint from buf starting at index p; returns the value and the
index just past the bytes consumed.  Reaching the end of the buffer
mid-varint simply stops the loop (no error). -/
def parse_var_int (buf : List Nat) (p : Nat) : Nat × Nat :=
  ((parse_var_int_aux (buf.drop p) 0 0).1, p + (parse_var_int_aux (buf.drop p) 0 0).2)

/-- usize::to_be_bytes (parser.rs line 191): the eight big-endian bytes
of a 64-bit value. -/
def to_be_bytes (n : Nat) : List Nat :=
  [n / 2 ^ 56 % 256, n / 2 ^ 48 % 256, n / 2 ^ 40 % 256, n / 2 ^ 32 % 256,
   n / 2 ^ 24 % 256, n / 2 ^ 16 % 256, n / 2 ^ 8 % 256, n % 256]

/-- struct Block (parser.rs lines 170-175). -/
structure Block where
  id : Nat
  blk_type : Nat
  data : List Nat
  begin_ : Nat
deriving DecidableEq

/-- The while loop of buf_to_blocks (parser.rs lines 181-207), with the
buffer suffix buf[i..] passed explicitly (pos is the absolute index i,
kept for the Block.begin_ field).  The tag byte's low three bits
(buf[i] & 0x07) select the block type, the rest (buf[i] >> 3) the id.
Type 0 stores the varint's big-endian bytes; type 2 reads a varint
byte count len and copies buf[p..p+len], which in Rust panics when
p + len exceeds the buffer length; any other type bails with a
format error.  The loop ends when the index reaches the end. -/
def blocksScan : List Nat → Nat → Except PErr (List Block)
  | [], _ => .ok []
  | b :: rest, pos =>
    let blk_type := b % 8
    let id := b / 8
    if blk_type = 0 then
      let r := parse_var_int_aux rest 0 0
      match blocksScan (rest.drop r.2) (pos + 1 + r.2) with
      | .error e => .error e
      | .ok bs => .ok (⟨id, 0, to_be_bytes r.1, pos⟩ :: bs)
    else if blk_type = 2 then
      let r := parse_var_int_aux rest 0 0
      if r.2 + r.1 ≤ rest.length then
        match blocksScan ((rest.drop r.2).drop r.1) (pos + 1 + r.2 + r.1) with
        | .error e => .error e
        | .ok bs => .ok (⟨id, 2, (rest.drop r.2).take r.1, pos⟩ :: bs)
      else .error (.panicked ("range end index out of range"))
    else .error (.err ("Invalid block type: " ++ toString blk_type))
termination_by bs _ => bs.length
decreasing_by
  all_goals simp [List.length_drop]
  all_goals omega

/-- buf_to_blocks (parser.rs lines 177-216): scan the whole slice into
blocks, require exactly two, and return (first block's data, second
block's data) = (method-name bytes, payload bytes); blocks.pop() takes
the data block (last) first, then the method block. -/
def buf_to_blocks (buf : List Nat) : Except PErr (List Nat × List Nat) :=
  match blocksScan buf 0 with
  | .error e => .error e
  | .ok blocks =>
    match blocks with
    | [method_block, data_block] => .ok (method_block.data, data_block.data)
    | bs => .error (.err ("Invalid number of blocks: " ++ toString bs.length))

/-- The fixed key cycle of decode (parser.rs line 235). -/
def keys : List Nat := [0x84, 0x5E, 0x4E, 0x42, 0x39, 0xA2, 0x1F, 0x60, 0x1C]

/-- keys[i % k] with k = keys.len() = 9; getD is safe since i % 9 < 9. -/
def keyAt (i : Nat) : Nat := keys.getD (i % 9) 0

/-- The loop body of decode (parser.rs lines 239-242): element i of the
result is data[i] ^ (((23 ^ d) + 5*i + keys[i % 9]) & 255), where d is
the length of the whole buffer.  Each iteration reads and writes only
index i, so the in-place loop is the index-wise map below. -/
def decodeFrom (d : Nat) : Nat → List Nat → List Nat
  | _, [] => []
  | i, b :: rest => (b ^^^ (((23 ^^^ d) + 5 * i + keyAt i) % 256)) :: decodeFrom d (i + 1) rest

/-- decode (parser.rs lines 234-244): the deobfuscator. -/
def decode (data : List Nat) : List Nat :=
  decodeFrom data.length 0 data

/-- to_fqn (parser.rs lines 166-168). -/
def to_fqn (method_name : String) : String := "lq." ++ method_name

/-- u16::from_le_bytes([buf[1], buf[2]]) as usize (parser.rs line 113):
little-endian; the reductions mod 256 embed the u8 type of the bytes. -/
def u16_le (b1 b2 : Nat) : Nat := b1 % 256 + 256 * (b2 % 256)

/-- Rust's char-separated string split, modelling str::split(sep):
splitting the empty string gives [""], and every separator occurrence
starts a new (possibly empty) segment. -/
def splitCharAux (sep : Char) : List Char → List (List Char)
  | [] => [[]]
  | c :: rest =>
    let r := splitCharAux sep rest
    if c = sep then [] :: r
    else
      match r with
      | hd :: tl => (c :: hd) :: tl
      | [] => [[c]]

/-- method_name.split(sep).collect() as Lean strings. -/
def splitChar (sep : Char) (s : String) : List String :=
  (splitCharAux sep s.data).map (fun cs => String.mk cs)

/-- The dot separator used by parse. -/
def dotChar : Char := Char.ofNat 46

/-- UTF-8 decoding of a byte list into the corresponding code points,
with the exact validity rules enforced by Rust's String::from_utf8:
continuation bytes in 0x80..0xBF, no overlong encodings (lead bytes
0xC0/0xC1 invalid, 0xE0 requires a second byte at least 0xA0, 0xF0 at
least 0x90), no surrogates (0xED caps the second byte below 0xA0), no
code point beyond 0x10FFFF (0xF4 caps the second byte below 0x90, lead
bytes at least 0xF5 invalid). -/
def utf8DecodeAux : List Nat → Option (List Char)
  | [] => some []
  | b :: rest =>
    if b < 128 then
      (utf8DecodeAux rest).map (fun cs => Char.ofNat b :: cs)
    else if b < 194 then none
    else if b < 224 then
      match rest with
      | b1 :: rest2 =>
        if 128 ≤ b1 ∧ b1 < 192 then
          (utf8DecodeAux rest2).map (fun cs => Char.ofNat ((b - 192) * 64 + (b1 - 128)) :: cs)
        else none
      | [] => none
    else if b < 240 then
      match rest with
      | b1 :: b2 :: rest2 =>
        if (if b = 224 then 160 else 128) ≤ b1 ∧ (if b = 237 then b1 < 160 else b1 < 192)
            ∧ 128 ≤ b2 ∧ b2 < 192 then
          (utf8DecodeAux rest2).map
            (fun cs => Char.ofNat ((b - 224) * 4096 + (b1 - 128) * 64 + (b2 - 128)) :: cs)
        else none
      | _ => none
    else if b < 245 then
      match rest with
      | b1 :: b2 :: b3 :: rest2 =>
        if (if b = 240 then 144 else 128) ≤ b1 ∧ (if b = 244 then b1 < 144 else b1 < 192)
            ∧ 128 ≤ b2 ∧ b2 < 192 ∧ 128 ≤ b3 ∧ b3 < 192 then
          (utf8DecodeAux rest2).map
            (fun cs =>
              Char.ofNat ((b - 240) * 262144 + (b1 - 128) * 4096 + (b2 - 128) * 64 + (b3 - 128)) :: cs)
        else none
      | _ => none
    else none

/-- String::from_utf8 (used at parser.rs lines 79 and 117). -/
def utf8Decode (bs : List Nat) : Option String :=
  (utf8DecodeAux bs).map (fun cs => String.mk cs)

/-- The external library collaborators used by parse, abstracted as an
environment: Dyn stands for prost_reflect::DynamicMessage, Desc for
prost_reflect::MessageDescriptor.  decodeDyn models
DynamicMessage::decode, my_serialize the serde-based my_serialize of
parser.rs lines 39-44, base64_decode BASE64_STANDARD.decode.  Each
returns its library error as a string, surfaced through the source's
? operator. -/
structure Libs (Dyn Desc : Type) where
  decodeDyn : Desc → List Nat → Except String Dyn
  my_serialize : Dyn → Except String JsonValue
  base64_decode : String → Except String (List Nat)

/-- struct Parser (parser.rs lines 32-37).  The HashMap respond_type is
modelled as a function to Option; pool models
DescriptorPool::get_message_by_name on the loaded catalog. -/
structure Parser (Desc : Type) where
  total : Nat
  respond_type : Nat → Option (String × Desc)
  proto_json : JsonValue
  pool : String → Option Desc

/-- HashMap::insert: overwrites any existing entry for the key. -/
def mapInsert {Desc : Type} (m : Nat → Option (String × Desc)) (k : Nat)
    (v : String × Desc) : Nat → Option (String × Desc) :=
  fun k' => if k' = k then some v else m k'

/-- HashMap::remove's effect on the map. -/
def mapRemove {Desc : Type} (m : Nat → Option (String × Desc)) (k : Nat) :
    Nat → Option (String × Desc) :=
  fun k' => if k' = k then none else m k'

/-- struct LiqiMessage (parser.rs lines 18-24). -/
structure LiqiMessage where
  id : Nat
  msg_type : MessageType
  method_name : String
  data : JsonValue

/-- The Notify arm of Parser::parse (parser.rs lines 77-110), up to the
final message assembly: yields (method_name, data_obj).  It mutates no
parser state (msg_id = self.total only reads the counter). -/
def parseNotifyCore {Dyn Desc : Type} (env : Libs Dyn Desc) (ps : Parser Desc)
    (buf : List Nat) : Except PErr (String × JsonValue) :=
  match buf_to_blocks (buf.drop 1) with
  | .error e => .error e
  | .ok (method, data) =>
    match utf8Decode method with
    | none => .error (.err ("invalid utf-8 sequence"))
    | some method_name =>
      let method_name_list := splitChar dotChar method_name
      -- method_name_list[2] panics when the index is out of bounds
      if 2 < method_name_list.length then
        let message_name := method_name_list.getD 2 ""
        match ps.pool (to_fqn message_name) with
        | none => .error (.err ("Invalid message type: " ++ message_name))
        | some message_type =>
          match env.decodeDyn message_type data with
          | .error e => .error (.err e)
          | .ok dyn_msg =>
            match env.my_serialize dyn_msg with
            | .error e => .error (.err e)
            | .ok data_obj =>
              match data_obj.getKey "data" with
              | none => .ok (method_name, data_obj)
              | some b64 =>
                match data_obj.getKey "name" with
                | none => .error (.err ("No name field"))
                | some nameVal =>
                  match nameVal.as_str with
                  | none => .error (.err ("name is not a string"))
                  | some action_name =>
                    let b64s := b64.as_str.getD ""
                    match env.base64_decode b64s with
                    | .error e => .error (.err e)
                    | .ok decoded =>
                      let my_decoded := decode decoded
                      match ps.pool (to_fqn action_name) with
                      | none => .error (.err ("Invalid action type: " ++ action_name))
                      | some action_type =>
                        match env.decodeDyn action_type my_decoded with
                        | .error e => .error (.err e)
                        | .ok action_msg =>
                          match env.my_serialize action_msg with
                          | .error e => .error (.err e)
                          | .ok action_obj =>
                            match data_obj.objInsert "data" action_obj with
                            | none => .error (.err ("data is not an object"))
                            | some data_obj2 => .ok (method_name, data_obj2)
      else .error (.panicked ("index out of bounds"))

/-- The Notify arm including message assembly; the parser state is
returned unchanged (the counter increment is shared by all arms and
happens in parse). -/
def parseNotify {Dyn Desc : Type} (env : Libs Dyn Desc) (ps : Parser Desc)
    (buf : List Nat) : Except PErr LiqiMessage × Parser Desc :=
  (match parseNotifyCore env ps buf with
   | .error e => .error e
   | .ok (method_name, data_obj) =>
     .ok { id := ps.total, msg_type := .Notify, method_name := method_name, data := data_obj },
   ps)

/-- The Request arm of Parser::parse (parser.rs lines 111-142): yields
the message and the updated respond_type table.  The table insert is
the last fallible-free step, after the payload decoded successfully. -/
def parseRequestCore {Dyn Desc : Type} (env : Libs Dyn Desc) (ps : Parser Desc)
    (buf : List Nat) :
    Except PErr (LiqiMessage × (Nat → Option (String × Desc))) :=
  match buf with
  | _ :: b1 :: b2 :: rest =>
    let msg_id := u16_le b1 b2
    match buf_to_blocks rest with
    | .error e => .error e
    | .ok (method, data) =>
      -- assert!(msg_id < 1 << 16)
      if msg_id < 65536 then
        match utf8Decode method with
        | none => .error (.err ("invalid utf-8 sequence"))
        | some method_name =>
          let method_name_list := splitChar dotChar method_name
          -- method_name_list[1], [2], [3] panic when out of bounds
          if 3 < method_name_list.length then
            let lq := method_name_list.getD 1 ""
            let service := method_name_list.getD 2 ""
            let rpc := method_name_list.getD 3 ""
            let proto_domain :=
              (((((ps.proto_json.idx "nested").idx lq).idx "nested").idx service).idx
                "methods").idx rpc
            match (proto_domain.idx "requestType").as_str with
            | none => .error (.err ("Invalid request type"))
            | some req_type_name =>
              match ps.pool (to_fqn req_type_name) with
              | none => .error (.err ("Invalid request type: " ++ req_type_name))
              | some req_type =>
                match env.decodeDyn req_type data with
                | .error e => .error (.err e)
                | .ok dyn_msg =>
                  match env.my_serialize dyn_msg with
                  | .error e => .error (.err e)
                  | .ok data_obj =>
                    match (proto_domain.idx "responseType").as_str with
                    | none => .error (.err ("Invalid response type"))
                    | some res_type_name =>
                      match ps.pool (to_fqn res_type_name) with
                      | none => .error (.err ("Invalid response type: " ++ res_type_name))
                      | some resp_type =>
                        .ok ({ id := msg_id, msg_type := .Request,
                               method_name := method_name, data := data_obj },
                             mapInsert ps.respond_type msg_id (method_name, resp_type))
          else .error (.panicked ("index out of bounds"))
      else .error (.panicked ("assertion failed: msg_id < 1 << 16"))
  | _ => .error (.panicked ("index out of bounds"))

/-- The Request arm: the table is replaced only when the whole arm
succeeded (in the source the insert is followed only by infallible
steps). -/
def parseRequest {Dyn Desc : Type} (env : Libs Dyn Desc) (ps : Parser Desc)
    (buf : List Nat) : Except PErr LiqiMessage × Parser Desc :=
  match parseRequestCore env ps buf with
  | .error e => (.error e, ps)
  | .ok (m, table) => (.ok m, { ps with respond_type := table })

/-- The Response arm of Parser::parse (parser.rs lines 143-154).  The
correlation entry is removed from the table before the payload is
decoded, so a failing payload decode still leaves the entry consumed;
the state is threaded through every exit. -/
def parseResponse {Dyn Desc : Type} (env : Libs Dyn Desc) (ps : Parser Desc)
    (buf : List Nat) : Except PErr LiqiMessage × Parser Desc :=
  match buf with
  | _ :: b1 :: b2 :: rest =>
    let msg_id := u16_le b1 b2
    match buf_to_blocks rest with
    | .error e => (.error e, ps)
    | .ok (method, data) =>
      -- assert!(method.is_empty())
      if method = [] then
        match ps.respond_type msg_id with
        | none => (.error (.err ("No corresponding request")), ps)
        | some (method_name, resp_type) =>
          let ps' := { ps with respond_type := mapRemove ps.respond_type msg_id }
          match env.decodeDyn resp_type data with
          | .error e => (.error (.err e), ps')
          | .ok dyn_msg =>
            match env.my_serialize dyn_msg with
            | .error e => (.error (.err e), ps')
            | .ok data_obj =>
              (.ok { id := msg_id, msg_type := .Response,
                     method_name := method_name, data := data_obj }, ps')
      else (.error (.panicked ("assertion failed: method.is_empty()")), ps)
  | _ => (.error (.panicked ("index out of bounds")), ps)

/-- Parser::parse (parser.rs lines 60-163).  buf[0] panics on an empty
frame; ensure! rejects a leading byte outside 1..=3; the three arms
run as above; on success self.total is incremented. -/
def parse {Dyn Desc : Type} (env : Libs Dyn Desc) (ps : Parser Desc)
    (buf : List Nat) : Except PErr LiqiMessage × Parser Desc :=
  match buf with
  | [] => (.error (.panicked ("index out of bounds")), ps)
  | msg_type_byte :: _ =>
    if 1 ≤ msg_type_byte ∧ msg_type_byte ≤ 3 then
      match
        (if msg_type_byte = 1 then parseNotify env ps buf
         else if msg_type_byte = 2 then parseRequest env ps buf
         else parseResponse env ps buf) with
      | (.ok m, ps') => (.ok m, { ps' with total := ps'.total + 1 })
      | (.error e, ps') => (.error e, ps')
    else (.error (.err ("Invalid message type: " ++ toString msg_type_byte)), ps)

/-! Spec-side material: the standard varint encoding and hand-built
two-block sub-buffers, used to state round-trip properties, plus
concrete environments and frames used by witnesses. -/

/-- Standard little-endian base-128 varint encoding of a value. -/
def varintEnc (n : Nat) : List Nat :=
  if n < 128 then [n] else (n % 128 + 128) :: varintEnc (n / 128)
decreasing_by omega

/-- A hand-built two-block sub-buffer: a tag byte, a varint length and
the bytes of the method-name block, then the same for the payload
block.  With t1 % 8 = t2 % 8 = 2 both blocks are length-delimited. -/
def encodeTwoBlocks (t1 t2 : Nat) (name payload : List Nat) : List Nat :=
  t1 :: (varintEnc name.length ++ (name ++ (t2 :: (varintEnc payload.length ++ payload))))

/-- A trivial environment whose library calls all fail (enough for
runs that never reach them). -/
def envTriv : Libs Unit Unit :=
  { decodeDyn := fun _ _ => .error ("unused")
    my_serialize := fun _ => .error ("unused")
    base64_decode := fun _ => .error ("unused") }

/-- A fresh parser over the trivial environment's types. -/
def psTriv : Parser Unit :=
  { total := 0, respond_type := fun _ => none, proto_json := .null, pool := fun _ => none }

/-- Concrete environment for request/response scenarios: descriptors
are their fully-qualified names, decoding returns the descriptor name
as a string value. -/
def envA : Libs JsonValue String :=
  { decodeDyn := fun d _ => .ok (.str d)
    my_serialize := fun j => .ok j
    base64_decode := fun _ => .error ("unused") }

/-- Service index holding one method a.lq.SvcA.rpcB with request type
ReqT and response type RespT. -/
def protoA : JsonValue :=
  .obj [("nested", .obj [("lq", .obj [("nested", .obj [("SvcA", .obj [("methods",
    .obj [("rpcB", .obj [("requestType", .str "ReqT"), ("responseType", .str "RespT")])])])])])])]

/-- Catalog knowing lq.ReqT and lq.RespT. -/
def poolA : String → Option String :=
  fun s => if s = "lq.ReqT" then some "lq.ReqT"
           else if s = "lq.RespT" then some "lq.RespT" else none

/-- A fresh parser holding protoA and poolA. -/
def psA : Parser String :=
  { total := 0, respond_type := fun _ => none, proto_json := protoA, pool := poolA }

/-- UTF-8 bytes of the dotted method name a.lq.SvcA.rpcB. -/
def nameBytesA : List Nat := [97, 46, 108, 113, 46, 83, 118, 99, 65, 46, 114, 112, 99, 66]

/-- A Request frame: kind 2, identifier 7 (little endian), then the
two-block sub-buffer with the method name and payload [5]. -/
def reqFrameA : List Nat := 2 :: 7 :: 0 :: encodeTwoBlocks 10 18 nameBytesA [5]

/-- A Response frame: kind 3, identifier 7, empty method block,
payload [9]. -/
def respFrameA : List Nat := 3 :: 7 :: 0 :: encodeTwoBlocks 10 18 [] [9]

/-- Concrete environment for Notify scenarios: the outer message
lq.Outer decodes to an object whose data field is the non-string
value 5 and whose name field is the string ActionX; every other
descriptor decodes to an object recording the payload length; base64
decoding accepts only the empty string. -/
def envB : Libs JsonValue String :=
  { decodeDyn := fun d bs =>
      .ok (if d = "lq.Outer" then .obj [("name", .str "ActionX"), ("data", .num 5)]
           else .obj [("len", .num bs.length)])
    my_serialize := fun j => .ok j
    base64_decode := fun s => if s = "" then .ok [] else .error ("invalid base64") }

/-- Catalog knowing lq.Outer and lq.ActionX. -/
def poolB : String → Option String :=
  fun s => if s = "lq.Outer" then some "lq.Outer"
           else if s = "lq.ActionX" then some "lq.ActionX" else none

/-- A fresh parser for the Notify scenario. -/
def psB : Parser String :=
  { total := 0, respond_type := fun _ => none, proto_json := .null, pool := poolB }

/-- UTF-8 bytes of the dotted name a.b.Outer (third segment Outer). -/
def nameBytesB : List Nat := [97, 46, 98, 46, 79, 117, 116, 101, 114]

/-- A Notify frame: kind 1 then the two-block sub-buffer. -/
def notifyFrameB : List Nat := 1 :: encodeTwoBlocks 10 18 nameBytesB [5]

/-! Concrete message values and parser states reached in the witness
scenarios above. -/

def reqMsgA : LiqiMessage :=
  { id := 7, msg_type := .Request, method_name := "a.lq.SvcA.rpcB", data := .str "lq.ReqT" }

def psA1 : Parser String :=
  { psA with respond_type := mapInsert psA.respond_type 7 ("a.lq.SvcA.rpcB", "lq.RespT"),
             total := 1 }

def respMsgA : LiqiMessage :=
  { id := 7, msg_type := .Response, method_name := "a.lq.SvcA.rpcB", data := .str "lq.RespT" }

def psA2 : Parser String :=
  { psA1 with respond_type := mapRemove psA1.respond_type 7, total := 2 }

def notifyMsgB : LiqiMessage :=
  { id := 0, msg_type := .Notify, method_name := "a.b.Outer",
    data := .obj [("name", .str "ActionX"), ("data", .obj [("len", .num 0)])] }

def envC : Libs JsonValue String :=
  { decodeDyn := fun _ _ => .error ("decode failed")
    my_serialize := fun j => .ok j
    base64_decode := fun _ => .error ("unused") }

/-! Helper lemmas, then the claim theorems with their witnesses and
counterexamples. -/

theorem as_str_str (s : String) : (JsonValue.str s).as_str = some s := rfl

theorem parse_var_int_aux_enc :
    ∀ (n : Nat) (rest : List Nat) (data shift : Nat),
      data + n * 2 ^ shift < 2 ^ 64 → shift ≤ 63 →
      parse_var_int_aux (varintEnc n ++ rest) data shift
        = (data + n * 2 ^ shift, (varintEnc n).length) := by
  intro n
  induction n using Nat.strong_induction_on with
  | _ n ih =>
    intro rest data shift hlt hs
    rw [varintEnc]
    by_cases h : n < 128
    · simp only [if_pos h, List.cons_append, List.nil_append, parse_var_int_aux]
      have h1 : n % 128 = n := Nat.mod_eq_of_lt h
      have h2 : shift % 64 = shift := Nat.mod_eq_of_lt (by omega)
      have h3 : n / 128 = 0 := Nat.div_eq_of_lt h
      simp only [h1, h2, h3, Nat.shiftLeft_eq, if_pos rfl, List.length_cons,
        List.length_nil]
      rw [Nat.mod_eq_of_lt hlt]
      simp
    · simp only [if_neg h, List.cons_append, parse_var_int_aux]
      have hb1 : (n % 128 + 128) % 128 = n % 128 := by omega
      have hb2 : (n % 128 + 128) / 128 = 1 := by omega
      have h2 : shift % 64 = shift := Nat.mod_eq_of_lt (by omega)
      have hle : (n % 128) * 2 ^ shift ≤ n * 2 ^ shift :=
        Nat.mul_le_mul_right _ (Nat.mod_le n 128)
      have hstep : data + (n % 128) * 2 ^ shift < 2 ^ 64 := by omega
      have e7 : 2 ^ (shift + 7) = 2 ^ shift * 128 := by rw [pow_add]; norm_num
      have hs7 : shift + 7 ≤ 63 := by
        by_contra hcon
        have h64 : 64 ≤ shift + 7 := by omega
        have : 2 ^ 64 ≤ 2 ^ (shift + 7) := Nat.pow_le_pow_right (by norm_num) h64
        have h128 : 128 * 2 ^ shift ≤ n * 2 ^ shift :=
          Nat.mul_le_mul_right _ (by omega)
        omega
      have hn := Nat.div_add_mod n 128
      have key : data + (n % 128) * 2 ^ shift + (n / 128) * 2 ^ (shift + 7)
          = data + n * 2 ^ shift := by
        rw [e7]
        conv_rhs => rw [← hn]
        ring
      have hlt' : (data + (n % 128) * 2 ^ shift) + (n / 128) * 2 ^ (shift + 7) < 2 ^ 64 := by
        omega
      have ihr := ih (n / 128) (Nat.div_lt_self (by omega) (by norm_num)) rest
        (data + (n % 128) * 2 ^ shift) (shift + 7) hlt' hs7
      simp only [hb1, hb2, h2, Nat.shiftLeft_eq, if_neg (by norm_num : ¬ (1 = 0)),
        Nat.mod_eq_of_lt hstep]
      rw [ihr]
      simp [key]

theorem blocksScan_nil (pos : Nat) : blocksScan [] pos = .ok [] := by
  simp [blocksScan]

theorem blocksScan_invalid (b : Nat) (rest : List Nat) (pos : Nat)
    (h0 : b % 8 ≠ 0) (h2 : b % 8 ≠ 2) :
    blocksScan (b :: rest) pos = .error (.err ("Invalid block type: " ++ toString (b % 8))) := by
  rw [blocksScan]
  simp [h0, h2]

theorem blocksScan_type2 (t : Nat) (ht : t % 8 = 2) (dataB rest : List Nat) (pos : Nat)
    (hlen : dataB.length < 2 ^ 64) :
    blocksScan (t :: (varintEnc dataB.length ++ (dataB ++ rest))) pos
      = match blocksScan rest (pos + 1 + (varintEnc dataB.length).length + dataB.length) with
        | .error e => .error e
        | .ok bs => .ok (⟨t / 8, 2, dataB, pos⟩ :: bs) := by
  have hv := parse_var_int_aux_enc dataB.length (dataB ++ rest) 0 0 (by simpa using hlen)
    (by norm_num)
  rw [blocksScan]
  simp only [ht, hv]
  norm_num

theorem blocksScan_overrun (t : Nat) (ht : t % 8 = 2) (rest : List Nat) (pos : Nat)
    (hov : rest.length < (parse_var_int_aux rest 0 0).2 + (parse_var_int_aux rest 0 0).1) :
    blocksScan (t :: rest) pos = .error (.panicked ("range end index out of range")) := by
  rw [blocksScan]
  simp only [ht]
  norm_num
  omega

theorem blocksScan_type2_last (t : Nat) (ht : t % 8 = 2) (dataB : List Nat) (pos : Nat)
    (hlen : dataB.length < 2 ^ 64) :
    blocksScan (t :: (varintEnc dataB.length ++ dataB)) pos
      = .ok [⟨t / 8, 2, dataB, pos⟩] := by
  have h := blocksScan_type2 t ht dataB [] pos hlen
  rw [List.append_nil] at h
  rw [h, blocksScan_nil]

theorem buf_to_blocks_roundtrip (t1 t2 : Nat) (h1 : t1 % 8 = 2) (h2 : t2 % 8 = 2)
    (name payload : List Nat) (hn : name.length < 2 ^ 64) (hp : payload.length < 2 ^ 64) :
    buf_to_blocks (encodeTwoBlocks t1 t2 name payload) = .ok (name, payload) := by
  unfold buf_to_blocks encodeTwoBlocks
  rw [blocksScan_type2 t1 h1 name (t2 :: (varintEnc payload.length ++ payload)) 0 hn]
  rw [blocksScan_type2_last t2 h2 payload _ hp]

theorem parse_notify_eq {Dyn Desc : Type} (env : Libs Dyn Desc) (ps : Parser Desc)
    (rest : List Nat) :
    parse env ps (1 :: rest)
      = (match parseNotifyCore env ps (1 :: rest) with
         | .error e => (.error e, ps)
         | .ok (mn, dobj) =>
           (.ok { id := ps.total, msg_type := .Notify, method_name := mn, data := dobj },
            { ps with total := ps.total + 1 })) := by
  rw [parse]
  norm_num
  rw [parseNotify]
  cases h : parseNotifyCore env ps (1 :: rest) with
  | error e => simp
  | ok p => cases p with | mk mn dobj => simp

theorem parse_request_eq {Dyn Desc : Type} (env : Libs Dyn Desc) (ps : Parser Desc)
    (rest : List Nat) :
    parse env ps (2 :: rest)
      = (match parseRequestCore env ps (2 :: rest) with
         | .error e => (.error e, ps)
         | .ok (m, table) =>
           (.ok m, { ps with respond_type := table, total := ps.total + 1 })) := by
  rw [parse]
  norm_num
  rw [parseRequest]
  cases h : parseRequestCore env ps (2 :: rest) with
  | error e => simp
  | ok p => cases p with | mk m table => simp

theorem parse_response_eq {Dyn Desc : Type} (env : Libs Dyn Desc) (ps : Parser Desc)
    (rest : List Nat) :
    parse env ps (3 :: rest)
      = (match parseResponse env ps (3 :: rest) with
         | (.ok m, ps') => (.ok m, { ps' with total := ps'.total + 1 })
         | (.error e, ps') => (.error e, ps')) := by
  rw [parse]
  norm_num

theorem decodeFrom_length (d : Nat) : ∀ (j : Nat) (xs : List Nat),
    (decodeFrom d j xs).length = xs.length := by
  intro j xs
  induction xs generalizing j with
  | nil => rfl
  | cons b rest ih => simp [decodeFrom, ih]

theorem decode_length (data : List Nat) : (decode data).length = data.length := by
  simp [decode, decodeFrom_length]

theorem decodeFrom_getElem? (d : Nat) : ∀ (xs : List Nat) (j i : Nat),
    (decodeFrom d j xs)[i]?
      = (xs[i]?).map (fun b => b ^^^ (((23 ^^^ d) + 5 * (j + i) + keyAt (j + i)) % 256)) := by
  intro xs
  induction xs with
  | nil => intro j i; simp [decodeFrom]
  | cons b rest ih =>
    intro j i
    cases i with
    | zero => simp [decodeFrom]
    | succ i' =>
      simp only [decodeFrom, List.getElem?_cons_succ]
      rw [ih (j + 1) i']
      have e : j + 1 + i' = j + (i' + 1) := by omega
      rw [e]

theorem decode_getElem? (data : List Nat) (i : Nat) (h : i < data.length) :
    (decode data)[i]?
      = some (data[i] ^^^ (((23 ^^^ data.length) + 5 * i + keyAt i) % 256)) := by
  rw [decode, decodeFrom_getElem?]
  simp [List.getElem?_eq_getElem h]

theorem xor_mod_two_pow (a b n : Nat) : (a ^^^ b) % 2 ^ n = (a % 2 ^ n) ^^^ (b % 2 ^ n) := by
  apply Nat.eq_of_testBit_eq
  intro i
  simp only [Nat.testBit_mod_two_pow, Nat.testBit_xor]
  by_cases h : i < n <;> simp [h]

theorem xor_left_cancel (a x y : Nat) (h : a ^^^ x = a ^^^ y) : x = y := by
  have : a ^^^ (a ^^^ x) = a ^^^ (a ^^^ y) := by rw [h]
  simpa [← Nat.xor_assoc, Nat.xor_self, Nat.zero_xor] using this

theorem parseNotify_snd {Dyn Desc : Type} (env : Libs Dyn Desc) (ps : Parser Desc)
    (buf : List Nat) : (parseNotify env ps buf).2 = ps := rfl

theorem parseRequest_snd_total {Dyn Desc : Type} (env : Libs Dyn Desc) (ps : Parser Desc)
    (buf : List Nat) : (parseRequest env ps buf).2.total = ps.total := by
  unfold parseRequest
  split
  · rfl
  · rfl

theorem parseResponse_snd_total {Dyn Desc : Type} (env : Libs Dyn Desc) (ps : Parser Desc)
    (buf : List Nat) : (parseResponse env ps buf).2.total = ps.total := by
  unfold parseResponse
  repeat'
    first
    | rfl
    | split
    | dsimp only []

theorem dispatch_snd_total {Dyn Desc : Type} (env : Libs Dyn Desc) (ps : Parser Desc)
    (b : Nat) (buf : List Nat) :
    ((if b = 1 then parseNotify env ps buf
      else if b = 2 then parseRequest env ps buf
      else parseResponse env ps buf)).2.total = ps.total := by
  split
  · rw [parseNotify_snd]
  · split
    · rw [parseRequest_snd_total]
    · rw [parseResponse_snd_total]

theorem parse_ok_total {Dyn Desc : Type} (env : Libs Dyn Desc) (ps : Parser Desc)
    (buf : List Nat) (m : LiqiMessage) (ps' : Parser Desc)
    (h : parse env ps buf = (.ok m, ps')) : ps'.total = ps.total + 1 := by
  cases buf with
  | nil => simp [parse] at h
  | cons b rest =>
    rw [parse] at h
    split at h
    · split at h
      next m1 ps1 heq =>
        have ht : ps1.total = ps.total := by
          have := dispatch_snd_total env ps b (b :: rest)
          rw [heq] at this
          exact this
        cases h
        simp [ht]
      next e1 ps1 heq => cases h
    · cases h

theorem parse_err_total {Dyn Desc : Type} (env : Libs Dyn Desc) (ps : Parser Desc)
    (buf : List Nat) (e : PErr) (ps' : Parser Desc)
    (h : parse env ps buf = (.error e, ps')) : ps'.total = ps.total := by
  cases buf with
  | nil =>
    rw [parse] at h
    cases h
    rfl
  | cons b rest =>
    rw [parse] at h
    split at h
    · split at h
      next m1 ps1 heq => cases h
      next e1 ps1 heq =>
        have ht : ps1.total = ps.total := by
          have := dispatch_snd_total env ps b (b :: rest)
          rw [heq] at this
          exact this
        cases h
        exact ht
    · cases h
      rfl

theorem parseResponse_hit {Dyn Desc : Type} (env : Libs Dyn Desc) (ps : Parser Desc)
    (b1 b2 : Nat) (rest data : List Nat) (M : String) (R : Desc) (dm : Dyn) (v : JsonValue)
    (hblk : buf_to_blocks rest = .ok ([], data))
    (htab : ps.respond_type (u16_le b1 b2) = some (M, R))
    (hdec : env.decodeDyn R data = .ok dm)
    (hser : env.my_serialize dm = .ok v) :
    parseResponse env ps (3 :: b1 :: b2 :: rest)
      = (.ok { id := u16_le b1 b2, msg_type := .Response, method_name := M, data := v },
         { ps with respond_type := mapRemove ps.respond_type (u16_le b1 b2) }) := by
  rw [parseResponse]
  simp [hblk, htab, hdec, hser]

theorem parseResponse_miss {Dyn Desc : Type} (env : Libs Dyn Desc) (ps : Parser Desc)
    (b1 b2 : Nat) (rest data : List Nat)
    (hblk : buf_to_blocks rest = .ok ([], data))
    (htab : ps.respond_type (u16_le b1 b2) = none) :
    parseResponse env ps (3 :: b1 :: b2 :: rest)
      = (.error (.err ("No corresponding request")), ps) := by
  rw [parseResponse]
  simp [hblk, htab]

theorem u16_le_lt (b1 b2 : Nat) : u16_le b1 b2 < 65536 := by
  unfold u16_le
  omega

theorem parseRequestCore_ok_inv {Dyn Desc : Type} (env : Libs Dyn Desc) (ps : Parser Desc)
    (buf : List Nat) (m : LiqiMessage) (table : Nat → Option (String × Desc))
    (h : parseRequestCore env ps buf = .ok (m, table)) :
    ∃ R : Desc, table = mapInsert ps.respond_type m.id (m.method_name, R) := by
  simp only [parseRequestCore] at h
  repeat' split at h
  all_goals (try (exact Except.noConfusion h))
  simp only [Except.ok.injEq, Prod.mk.injEq] at h
  obtain ⟨rfl, rfl⟩ := h
  exact ⟨_, rfl⟩

theorem parse_request_err_state {Dyn Desc : Type} (env : Libs Dyn Desc) (ps : Parser Desc)
    (rest : List Nat) (e : PErr) (ps' : Parser Desc)
    (h : parse env ps (2 :: rest) = (.error e, ps')) : ps' = ps := by
  rw [parse_request_eq] at h
  split at h
  · cases h
    rfl
  · cases h

theorem parseRequestCore_payload_err {Dyn Desc : Type} (env : Libs Dyn Desc) (ps : Parser Desc)
    (b1 b2 : Nat) (rest method data : List Nat) (method_name req_type_name : String)
    (pd : JsonValue) (req_type : Desc) (emsg : String)
    (hblk : buf_to_blocks rest = .ok (method, data))
    (hutf : utf8Decode method = some method_name)
    (hlen : 3 < (splitChar dotChar method_name).length)
    (hpd : pd = (((((ps.proto_json.idx "nested").idx
        ((splitChar dotChar method_name).getD 1 "")).idx "nested").idx
        ((splitChar dotChar method_name).getD 2 "")).idx "methods").idx
        ((splitChar dotChar method_name).getD 3 ""))
    (hreq : (pd.idx "requestType").as_str = some req_type_name)
    (hpool : ps.pool (to_fqn req_type_name) = some req_type)
    (hdec : env.decodeDyn req_type data = .error emsg) :
    parseRequestCore env ps (2 :: b1 :: b2 :: rest) = .error (.err emsg) := by
  subst hpd
  simp only [parseRequestCore, hblk, hutf, hreq, hpool, hdec, if_pos (u16_le_lt b1 b2),
    if_pos hlen]

theorem parseRequestCore_ok {Dyn Desc : Type} (env : Libs Dyn Desc) (ps : Parser Desc)
    (b1 b2 : Nat) (rest method data : List Nat)
    (method_name req_type_name res_type_name : String) (pd : JsonValue)
    (req_type resp_type : Desc) (dm : Dyn) (v : JsonValue)
    (hblk : buf_to_blocks rest = .ok (method, data))
    (hutf : utf8Decode method = some method_name)
    (hlen : 3 < (splitChar dotChar method_name).length)
    (hpd : pd = (((((ps.proto_json.idx "nested").idx
        ((splitChar dotChar method_name).getD 1 "")).idx "nested").idx
        ((splitChar dotChar method_name).getD 2 "")).idx "methods").idx
        ((splitChar dotChar method_name).getD 3 ""))
    (hreq : (pd.idx "requestType").as_str = some req_type_name)
    (hpool : ps.pool (to_fqn req_type_name) = some req_type)
    (hdec : env.decodeDyn req_type data = .ok dm)
    (hser : env.my_serialize dm = .ok v)
    (hres : (pd.idx "responseType").as_str = some res_type_name)
    (hrpool : ps.pool (to_fqn res_type_name) = some resp_type) :
    parseRequestCore env ps (2 :: b1 :: b2 :: rest)
      = .ok ({ id := u16_le b1 b2, msg_type := .Request, method_name := method_name,
               data := v },
             mapInsert ps.respond_type (u16_le b1 b2) (method_name, resp_type)) := by
  subst hpd
  simp only [parseRequestCore, hblk, hutf, hreq, hpool, hdec, hser, hres, hrpool,
    if_pos (u16_le_lt b1 b2), if_pos hlen]

theorem buf_to_blocks_of_scan (buf : List Nat) (bs : List Block)
    (h : blocksScan buf 0 = .ok bs) :
    (bs.length = 2 →
      buf_to_blocks buf = .ok ((bs.getD 0 ⟨0, 0, [], 0⟩).data, (bs.getD 1 ⟨0, 0, [], 0⟩).data))
    ∧ (bs.length ≠ 2 →
      buf_to_blocks buf = .error (.err ("Invalid number of blocks: " ++ toString bs.length))) := by
  unfold buf_to_blocks
  rw [h]
  match bs with
  | [] => simp
  | [x] => simp
  | [x, y] => simp
  | x :: y :: z :: t => simp

theorem parse_var_int_aux_truncated :
    ∀ (bs : List Nat) (data shift : Nat), (∀ b ∈ bs, b / 128 ≠ 0) →
      (parse_var_int_aux bs data shift).2 = bs.length := by
  intro bs
  induction bs with
  | nil => intro data shift _; rfl
  | cons b rest ih =>
    intro data shift hall
    have hb : b / 128 ≠ 0 := hall b (by simp)
    simp only [parse_var_int_aux, if_neg hb]
    have := ih ((data + (b % 128) <<< (shift % 64)) % 2 ^ 64) (shift + 7)
      (fun x hx => hall x (by simp [hx]))
    norm_num at this
    simp [this]

theorem decode_ne_at (xs ys : List Nat) (i : Nat) (hx : i < xs.length) (hy : i < ys.length)
    (hmod : xs.length % 256 ≠ ys.length % 256) (hagree : xs[i]? = ys[i]?) :
    (decode xs)[i]? ≠ (decode ys)[i]? := by
  rw [decode_getElem? xs i hx, decode_getElem? ys i hy]
  rw [List.getElem?_eq_getElem hx, List.getElem?_eq_getElem hy] at hagree
  have hb : xs[i] = ys[i] := Option.some.inj hagree
  rw [hb]
  intro heq
  have h1 := Option.some.inj heq
  have h2 := xor_left_cancel _ _ _ h1
  have h3 : (23 ^^^ xs.length) % 256 = (23 ^^^ ys.length) % 256 := by omega
  have h4 : (23 ^^^ xs.length) % 2 ^ 8 = (23 ^^^ ys.length) % 2 ^ 8 := by norm_num at h3 ⊢; exact h3
  rw [xor_mod_two_pow, xor_mod_two_pow] at h4
  have h5 := xor_left_cancel _ _ _ h4
  norm_num at h5
  omega

theorem blocksA : buf_to_blocks (encodeTwoBlocks 10 18 nameBytesA [5]) = .ok (nameBytesA, [5]) :=
  buf_to_blocks_roundtrip 10 18 (by norm_num) (by norm_num) nameBytesA [5]
    (by norm_num [nameBytesA]) (by norm_num)

theorem blocksResp : buf_to_blocks (encodeTwoBlocks 10 18 [] [9]) = .ok ([], [9]) :=
  buf_to_blocks_roundtrip 10 18 (by norm_num) (by norm_num) [] [9]
    (by norm_num) (by norm_num)

theorem evalReqA : parse envA psA reqFrameA = (.ok reqMsgA, psA1) := by
  show parse envA psA (2 :: 7 :: 0 :: encodeTwoBlocks 10 18 nameBytesA [5]) = (.ok reqMsgA, psA1)
  rw [parse_request_eq]
  rw [parseRequestCore_ok envA psA 7 0 (encodeTwoBlocks 10 18 nameBytesA [5]) nameBytesA [5]
      "a.lq.SvcA.rpcB" "ReqT" "RespT"
      (JsonValue.obj [("requestType", JsonValue.str "ReqT"), ("responseType", JsonValue.str "RespT")])
      "lq.ReqT" "lq.RespT" (JsonValue.str "lq.ReqT") (JsonValue.str "lq.ReqT")
      blocksA rfl (by decide) rfl rfl rfl rfl rfl rfl rfl]
  rfl

theorem evalRespA : parse envA psA1 respFrameA = (.ok respMsgA, psA2) := by
  show parse envA psA1 (3 :: 7 :: 0 :: encodeTwoBlocks 10 18 [] [9]) = (.ok respMsgA, psA2)
  rw [parse_response_eq]
  rw [parseResponse_hit envA psA1 7 0 (encodeTwoBlocks 10 18 [] [9]) [9]
      "a.lq.SvcA.rpcB" "lq.RespT" (JsonValue.str "lq.RespT") (JsonValue.str "lq.RespT")
      blocksResp rfl rfl rfl]
  rfl

theorem evalRespA2 : parse envA psA2 respFrameA = (.error (.err ("No corresponding request")), psA2) := by
  show parse envA psA2 (3 :: 7 :: 0 :: encodeTwoBlocks 10 18 [] [9]) = _
  rw [parse_response_eq]
  rw [parseResponse_miss envA psA2 7 0 (encodeTwoBlocks 10 18 [] [9]) [9] blocksResp rfl]

theorem blocksB : buf_to_blocks (encodeTwoBlocks 10 18 nameBytesB [5]) = .ok (nameBytesB, [5]) :=
  buf_to_blocks_roundtrip 10 18 (by norm_num) (by norm_num) nameBytesB [5]
    (by norm_num [nameBytesB]) (by norm_num)

theorem evalNotifyB : parse envB psB notifyFrameB = (.ok notifyMsgB, { psB with total := 1 }) := by
  have hcore : parseNotifyCore envB psB (1 :: encodeTwoBlocks 10 18 nameBytesB [5])
      = .ok ("a.b.Outer", .obj [("name", .str "ActionX"), ("data", .obj [("len", .num 0)])]) := by
    simp only [parseNotifyCore, List.drop_succ_cons, List.drop_zero, blocksB]
    rfl
  show parse envB psB (1 :: encodeTwoBlocks 10 18 nameBytesB [5]) = (.ok notifyMsgB, { psB with total := 1 })
  rw [parse_notify_eq, hcore]
  rfl

theorem parse_response_hit_full {Dyn Desc : Type} (env : Libs Dyn Desc) (ps : Parser Desc)
    (b1 b2 : Nat) (rest data : List Nat) (M : String) (R : Desc) (dm : Dyn) (v : JsonValue)
    (hblk : buf_to_blocks rest = .ok ([], data))
    (htab : ps.respond_type (u16_le b1 b2) = some (M, R))
    (hdec : env.decodeDyn R data = .ok dm)
    (hser : env.my_serialize dm = .ok v) :
    parse env ps (3 :: b1 :: b2 :: rest)
      = (.ok { id := u16_le b1 b2, msg_type := .Response, method_name := M, data := v },
         { ps with respond_type := mapRemove ps.respond_type (u16_le b1 b2),
                   total := ps.total + 1 }) := by
  rw [parse_response_eq, parseResponse_hit env ps b1 b2 rest data M R dm v hblk htab hdec hser]

theorem parse_response_miss_full {Dyn Desc : Type} (env : Libs Dyn Desc) (ps : Parser Desc)
    (b1 b2 : Nat) (rest data : List Nat)
    (hblk : buf_to_blocks rest = .ok ([], data))
    (htab : ps.respond_type (u16_le b1 b2) = none) :
    parse env ps (3 :: b1 :: b2 :: rest)
      = (.error (.err ("No corresponding request")), ps) := by
  rw [parse_response_eq, parseResponse_miss env ps b1 b2 rest data hblk htab]

/-- Claim C1: decoding a Request frame with identifier X records a correlation
entry (method name, response schema) for X; a Response frame with identifier X
is decoded with exactly the stored schema, reports the stored method name, and
consumes the entry; a Response whose identifier has no entry (never inserted,
or already consumed by an earlier Response) fails with the
"No corresponding request" error. -/
theorem C1_pending_request_lifecycle :
    (∀ (Dyn Desc : Type) (env : Libs Dyn Desc) (ps : Parser Desc) (rest : List Nat)
       (m : LiqiMessage) (ps' : Parser Desc),
       parse env ps (2 :: rest) = (.ok m, ps') →
       ∃ R : Desc, ps'.respond_type m.id = some (m.method_name, R))
    ∧ (∀ (Dyn Desc : Type) (env : Libs Dyn Desc) (ps : Parser Desc) (b1 b2 : Nat)
         (rest data : List Nat) (M : String) (R : Desc) (dm : Dyn) (v : JsonValue),
         buf_to_blocks rest = .ok ([], data) →
         ps.respond_type (u16_le b1 b2) = some (M, R) →
         env.decodeDyn R data = .ok dm →
         env.my_serialize dm = .ok v →
         parse env ps (3 :: b1 :: b2 :: rest)
           = (.ok { id := u16_le b1 b2, msg_type := .Response, method_name := M, data := v },
              { ps with respond_type := mapRemove ps.respond_type (u16_le b1 b2),
                        total := ps.total + 1 }))
    ∧ (∀ (Dyn Desc : Type) (env : Libs Dyn Desc) (ps : Parser Desc) (b1 b2 : Nat)
         (rest data : List Nat),
         buf_to_blocks rest = .ok ([], data) →
         ps.respond_type (u16_le b1 b2) = none →
         parse env ps (3 :: b1 :: b2 :: rest)
           = (.error (.err ("No corresponding request")), ps))
    ∧ (∀ (Dyn Desc : Type) (env : Libs Dyn Desc) (ps : Parser Desc) (b1 b2 : Nat)
         (rest data rest2 data2 : List Nat) (M : String) (R : Desc) (dm : Dyn) (v : JsonValue),
         buf_to_blocks rest = .ok ([], data) →
         ps.respond_type (u16_le b1 b2) = some (M, R) →
         env.decodeDyn R data = .ok dm →
         env.my_serialize dm = .ok v →
         buf_to_blocks rest2 = .ok ([], data2) →
         (parse env (parse env ps (3 :: b1 :: b2 :: rest)).2 (3 :: b1 :: b2 :: rest2)).1
           = .error (.err ("No corresponding request"))) := by
  refine ⟨?_, ?_, ?_, ?_⟩
  · intro Dyn Desc env ps rest m ps' h
    rw [parse_request_eq] at h
    split at h
    next e heq => simp at h
    next m1 table heq =>
      obtain ⟨R, hR⟩ := parseRequestCore_ok_inv env ps _ m1 table heq
      rw [Prod.mk.injEq] at h
      obtain ⟨h1, h2⟩ := h
      rw [Except.ok.injEq] at h1
      subst h1
      subst h2
      refine ⟨R, ?_⟩
      show table m1.id = some (m1.method_name, R)
      rw [hR]
      simp [mapInsert]
  · intro Dyn Desc env ps b1 b2 rest data M R dm v hblk htab hdec hser
    exact parse_response_hit_full env ps b1 b2 rest data M R dm v hblk htab hdec hser
  · intro Dyn Desc env ps b1 b2 rest data hblk htab
    exact parse_response_miss_full env ps b1 b2 rest data hblk htab
  · intro Dyn Desc env ps b1 b2 rest data rest2 data2 M R dm v hblk htab hdec hser hblk2
    rw [parse_response_hit_full env ps b1 b2 rest data M R dm v hblk htab hdec hser]
    rw [parse_response_miss_full env _ b1 b2 rest2 data2 hblk2 (by simp [mapRemove])]

/-- Witness for C1 at the concrete request/response scenario: the request with
identifier 7 creates the entry, the first matching response succeeds and
consumes it, a response on the fresh parser fails, and a second response after
the successful one fails with the same error. -/
theorem C1_witness :
    (∃ R : String, psA1.respond_type reqMsgA.id = some (reqMsgA.method_name, R))
    ∧ parse envA psA1 respFrameA = (.ok respMsgA, psA2)
    ∧ parse envA psA respFrameA = (.error (.err ("No corresponding request")), psA)
    ∧ (parse envA (parse envA psA1 respFrameA).2 respFrameA).1
        = .error (.err ("No corresponding request")) := by
  refine ⟨?_, ?_, ?_, ?_⟩
  · exact C1_pending_request_lifecycle.1 JsonValue String envA psA
      (7 :: 0 :: encodeTwoBlocks 10 18 nameBytesA [5]) reqMsgA psA1 evalReqA
  · exact C1_pending_request_lifecycle.2.1 JsonValue String envA psA1 7 0
      (encodeTwoBlocks 10 18 [] [9]) [9] "a.lq.SvcA.rpcB" "lq.RespT"
      (JsonValue.str "lq.RespT") (JsonValue.str "lq.RespT") blocksResp rfl rfl rfl
  · exact C1_pending_request_lifecycle.2.2.1 JsonValue String envA psA 7 0
      (encodeTwoBlocks 10 18 [] [9]) [9] blocksResp rfl
  · exact C1_pending_request_lifecycle.2.2.2 JsonValue String envA psA1 7 0
      (encodeTwoBlocks 10 18 [] [9]) [9] (encodeTwoBlocks 10 18 [] [9]) [9]
      "a.lq.SvcA.rpcB" "lq.RespT" (JsonValue.str "lq.RespT") (JsonValue.str "lq.RespT")
      blocksResp rfl rfl rfl blocksResp

/-- Claim C2: the block splitter consumes its slice exactly to the end and
yields blocks in encounter order (witnessed by the round trip on hand-built
two-block buffers, which decode to exactly their two blocks and nothing else);
the caller requires exactly two blocks, returning the first block's data as
the method-name bytes and the second block's data as the payload bytes, and
any other block count is a format error naming the count. -/
theorem C2_block_splitter_contract :
    (∀ (buf : List Nat) (bs : List Block), blocksScan buf 0 = .ok bs →
      (bs.length = 2 →
        buf_to_blocks buf = .ok ((bs.getD 0 ⟨0, 0, [], 0⟩).data, (bs.getD 1 ⟨0, 0, [], 0⟩).data))
      ∧ (bs.length ≠ 2 →
        buf_to_blocks buf = .error (.err ("Invalid number of blocks: " ++ toString bs.length))))
    ∧ (∀ (t1 t2 : Nat) (name payload : List Nat), t1 % 8 = 2 → t2 % 8 = 2 →
        name.length < 2 ^ 64 → payload.length < 2 ^ 64 →
        buf_to_blocks (encodeTwoBlocks t1 t2 name payload) = .ok (name, payload)) :=
  ⟨buf_to_blocks_of_scan,
   fun t1 t2 name payload h1 h2 hn hp => buf_to_blocks_roundtrip t1 t2 h1 h2 name payload hn hp⟩

/-- Witness for C2: a hand-built buffer with name block [65] and payload block
[66] round-trips, and a three-block buffer is rejected naming the count 3. -/
theorem C2_witness :
    buf_to_blocks (encodeTwoBlocks 10 18 [65] [66]) = .ok ([65], [66])
    ∧ buf_to_blocks [10, 0, 10, 0, 10, 0] = .error (.err ("Invalid number of blocks: 3")) := by
  constructor
  · exact C2_block_splitter_contract.2 10 18 [65] [66] (by norm_num) (by norm_num)
      (by norm_num) (by norm_num)
  · have hscan : blocksScan [10, 0, 10, 0, 10, 0] 0
        = .ok [⟨1, 2, [], 0⟩, ⟨1, 2, [], 2⟩, ⟨1, 2, [], 4⟩] := by
      simp [blocksScan, parse_var_int_aux]
    have h3 := (C2_block_splitter_contract.1 [10, 0, 10, 0, 10, 0] _ hscan).2 (by norm_num)
    simpa using h3

/-- Claim C3: the deobfuscator preserves the buffer length, and its output
byte at every index i is input[i] XOR (((23 XOR d) + 5*i + K[i mod 9]) AND
0xFF) with d the input length and K the fixed nine-byte key cycle. -/
theorem C3_deobfuscator_formula :
    ∀ (data : List Nat),
      (decode data).length = data.length
      ∧ ∀ (i : Nat) (h : i < data.length),
          (decode data)[i]?
            = some (data[i] ^^^ (((23 ^^^ data.length) + 5 * i + keys.getD (i % 9) 0) % 256)) := by
  intro data
  refine ⟨decode_length data, ?_⟩
  intro i h
  rw [decode_getElem? data i h]
  rfl

/-- Witness for C3 on [7, 8, 9] at index 1. -/
theorem C3_witness :
    (decode [7, 8, 9]).length = 3
    ∧ (decode [7, 8, 9])[1]?
        = some (8 ^^^ (((23 ^^^ 3) + 5 * 1 + keys.getD (1 % 9) 0) % 256)) :=
  ⟨(C3_deobfuscator_formula [7, 8, 9]).1,
   (C3_deobfuscator_formula [7, 8, 9]).2 1 (by norm_num)⟩

/-- Claim C4 (amended): a nonempty frame whose leading byte is outside 1..3
is rejected with the "Invalid message type" error (in particular 0 and 4),
but an empty frame makes buf[0] panic (index out of bounds) instead of
returning that error. -/
theorem C4_leading_byte :
    (∀ (Dyn Desc : Type) (env : Libs Dyn Desc) (ps : Parser Desc) (b : Nat) (rest : List Nat),
      ¬(1 ≤ b ∧ b ≤ 3) →
      parse env ps (b :: rest)
        = (.error (.err ("Invalid message type: " ++ toString b)), ps))
    ∧ (∀ (Dyn Desc : Type) (env : Libs Dyn Desc) (ps : Parser Desc),
      parse env ps [] = (.error (.panicked ("index out of bounds")), ps)) := by
  constructor
  · intro Dyn Desc env ps b rest hb
    rw [parse, if_neg hb]
  · intro Dyn Desc env ps
    rfl

/-- Counterexample for C4 as stated: the empty frame does not produce an
InvalidMessageType error value; it panics with an index-out-of-bounds. -/
theorem C4_counterexample :
    parse envTriv psTriv [] = (.error (.panicked ("index out of bounds")), psTriv) := rfl

/-- Witness for C4: leading bytes 0 and 4 are rejected with the error, and
the empty frame panics. -/
theorem C4_witness :
    parse envTriv psTriv [0] = (.error (.err ("Invalid message type: 0")), psTriv)
    ∧ parse envTriv psTriv [4] = (.error (.err ("Invalid message type: 4")), psTriv)
    ∧ parse envTriv psTriv [] = (.error (.panicked ("index out of bounds")), psTriv) :=
  ⟨C4_leading_byte.1 Unit Unit envTriv psTriv 0 [] (by decide),
   C4_leading_byte.1 Unit Unit envTriv psTriv 4 [] (by decide),
   C4_leading_byte.2 Unit Unit envTriv psTriv⟩

/-- Claim C5 (amended): an invalid block type (neither 0 nor 2) is a
FormatError naming the type; but the splitter is not total-with-clean-errors:
a length-delimited span whose declared byte count exceeds the remaining input
is a Rust panic (slice range out of bounds), not a FormatError, and an
oversized or truncated variable-length integer is not detected at all - the
varint reader returns normally, consuming to the end of the buffer, with the
value accumulated so far. -/
theorem C5_splitter_failure_modes :
    (∀ (b : Nat) (rest : List Nat) (pos : Nat), b % 8 ≠ 0 → b % 8 ≠ 2 →
      blocksScan (b :: rest) pos
        = .error (.err ("Invalid block type: " ++ toString (b % 8))))
    ∧ (∀ (t : Nat) (rest : List Nat) (pos : Nat), t % 8 = 2 →
        rest.length < (parse_var_int_aux rest 0 0).2 + (parse_var_int_aux rest 0 0).1 →
        blocksScan (t :: rest) pos = .error (.panicked ("range end index out of range")))
    ∧ (∀ (bs : List Nat) (data shift : Nat), (∀ b ∈ bs, b / 128 ≠ 0) →
        (parse_var_int_aux bs data shift).2 = bs.length) :=
  ⟨blocksScan_invalid,
   fun t rest pos ht hov => blocksScan_overrun t ht rest pos hov,
   parse_var_int_aux_truncated⟩

/-- Counterexample for C5 as stated: the two-byte buffer [10, 5] declares a
five-byte span with only zero bytes remaining, and the splitter panics
instead of returning a FormatError. -/
theorem C5_counterexample :
    buf_to_blocks [10, 5] = .error (.panicked ("range end index out of range")) := by
  simp [buf_to_blocks, blocksScan, parse_var_int_aux]

/-- Witness for C5: block type 3 is named in a FormatError, the overrunning
span [10, 5] panics, and the truncated varint [128] returns silently after
consuming the whole buffer. -/
theorem C5_witness :
    blocksScan [3] 0 = .error (.err ("Invalid block type: 3"))
    ∧ blocksScan [10, 5] 0 = .error (.panicked ("range end index out of range"))
    ∧ (parse_var_int_aux [128] 0 0).2 = 1 :=
  ⟨C5_splitter_failure_modes.1 3 [] 0 (by decide) (by decide),
   C5_splitter_failure_modes.2.1 10 [5] 0 (by decide) (by decide),
   C5_splitter_failure_modes.2.2 [128] 0 0 (by decide)⟩

/-- Claim C6: on the Request path the correlation-table insert happens only
after the payload decoded successfully: any error on a Request frame leaves
the parser state (in particular the table) exactly as it was, and a failing
payload decode (or request-type resolution) makes the call return that error
with the table untouched. -/
theorem C6_request_atomicity :
    (∀ (Dyn Desc : Type) (env : Libs Dyn Desc) (ps : Parser Desc) (rest : List Nat)
       (e : PErr) (ps' : Parser Desc),
       parse env ps (2 :: rest) = (.error e, ps') → ps' = ps)
    ∧ (∀ (Dyn Desc : Type) (env : Libs Dyn Desc) (ps : Parser Desc) (b1 b2 : Nat)
         (rest method data : List Nat) (method_name req_type_name : String)
         (pd : JsonValue) (req_type : Desc) (emsg : String),
         buf_to_blocks rest = .ok (method, data) →
         utf8Decode method = some method_name →
         3 < (splitChar dotChar method_name).length →
         pd = (((((ps.proto_json.idx "nested").idx
             ((splitChar dotChar method_name).getD 1 "")).idx "nested").idx
             ((splitChar dotChar method_name).getD 2 "")).idx "methods").idx
             ((splitChar dotChar method_name).getD 3 "") →
         (pd.idx "requestType").as_str = some req_type_name →
         ps.pool (to_fqn req_type_name) = some req_type →
         env.decodeDyn req_type data = .error emsg →
         parse env ps (2 :: b1 :: b2 :: rest) = (.error (.err emsg), ps)) := by
  constructor
  · intro Dyn Desc env ps rest e ps' h
    exact parse_request_err_state env ps rest e ps' h
  · intro Dyn Desc env ps b1 b2 rest method data method_name req_type_name pd req_type emsg
      hblk hutf hlen hpd hreq hpool hdec
    rw [parse_request_eq, parseRequestCore_payload_err env ps b1 b2 rest method data
      method_name req_type_name pd req_type emsg hblk hutf hlen hpd hreq hpool hdec]

/-- Witness for C6: a malformed request frame leaves the state unchanged, and
a request whose payload fails to decode returns that error with no insert. -/
theorem C6_witness :
    psA = psA
    ∧ parse envC psA reqFrameA = (.error (.err ("decode failed")), psA) := by
  constructor
  · exact C6_request_atomicity.1 JsonValue String envA psA []
      (.panicked ("index out of bounds")) psA rfl
  · exact C6_request_atomicity.2 JsonValue String envC psA 7 0
      (encodeTwoBlocks 10 18 nameBytesA [5]) nameBytesA [5] "a.lq.SvcA.rpcB" "ReqT"
      (JsonValue.obj [("requestType", JsonValue.str "ReqT"), ("responseType", JsonValue.str "RespT")])
      "lq.ReqT" "decode failed" blocksA rfl (by decide) rfl rfl rfl rfl

/-- Claim C7: the varint reader decodes the standard little-endian base-128
boundary encodings of 0, 127, 128, 16383, 16384 and the ten-byte maximum
2^64 - 1, consuming exactly their encoded bytes. -/
theorem C7_varint_boundaries :
    parse_var_int [0] 0 = (0, 1)
    ∧ parse_var_int [127] 0 = (127, 1)
    ∧ parse_var_int [128, 1] 0 = (128, 2)
    ∧ parse_var_int [255, 127] 0 = (16383, 2)
    ∧ parse_var_int [128, 128, 1] 0 = (16384, 3)
    ∧ parse_var_int [255, 255, 255, 255, 255, 255, 255, 255, 255, 1] 0 = (2 ^ 64 - 1, 10) := by
  decide

/-- Claim C8 (amended): the deobfuscator is deterministic; and two buffers
whose lengths are incongruent modulo 256, agreeing at an overlapping index,
produce different outputs there.  (For lengths congruent mod 256 the key
stream coincides, so the claim's unrestricted version fails.) -/
theorem C8_deobfuscator_hyperproperties :
    (∀ data : List Nat, decode data = decode data)
    ∧ (∀ (xs ys : List Nat) (i : Nat), xs.length % 256 ≠ ys.length % 256 →
        i < xs.length → i < ys.length → xs[i]? = ys[i]? →
        (decode xs)[i]? ≠ (decode ys)[i]?) :=
  ⟨fun _ => rfl, fun xs ys i hmod hx hy hagree => decode_ne_at xs ys i hx hy hmod hagree⟩

set_option maxRecDepth 8000 in
/-- Counterexample for C8 as stated: the buffers [7] (length 1) and
7 :: replicate 256 0 (length 257) agree on their common prefix and have
different lengths, yet the outputs coincide at overlapping index 0, because
257 is congruent to 1 modulo 256. -/
theorem C8_counterexample :
    ([7] : List Nat).length = 1
    ∧ (7 :: List.replicate 256 0 : List Nat).length = 257
    ∧ (decode [7])[0]? = (decode (7 :: List.replicate 256 0))[0]? := by
  decide

/-- Witness for C8 at lengths 1 and 2. -/
theorem C8_witness :
    decode [7] = decode [7]
    ∧ (decode [7])[0]? ≠ (decode [7, 8])[0]? :=
  ⟨C8_deobfuscator_hyperproperties.1 [7],
   C8_deobfuscator_hyperproperties.2 [7] [7, 8] 0 (by decide) (by decide) (by decide)
     (by decide)⟩

/-- Claim C9: a successful Notify decode returns the counter's current value
as the identifier; every successful decode of any kind increments the
counter by one; a decode that returns an error leaves the counter
unchanged. -/
theorem C9_counter_behaviour :
    (∀ (Dyn Desc : Type) (env : Libs Dyn Desc) (ps : Parser Desc) (buf : List Nat)
       (m : LiqiMessage) (ps' : Parser Desc),
       parse env ps buf = (.ok m, ps') → ps'.total = ps.total + 1)
    ∧ (∀ (Dyn Desc : Type) (env : Libs Dyn Desc) (ps : Parser Desc) (rest : List Nat)
       (m : LiqiMessage) (ps' : Parser Desc),
       parse env ps (1 :: rest) = (.ok m, ps') → m.id = ps.total)
    ∧ (∀ (Dyn Desc : Type) (env : Libs Dyn Desc) (ps : Parser Desc) (buf : List Nat)
       (e : PErr) (ps' : Parser Desc),
       parse env ps buf = (.error e, ps') → ps'.total = ps.total) := by
  refine ⟨?_, ?_, ?_⟩
  · intro Dyn Desc env ps buf m ps' h
    exact parse_ok_total env ps buf m ps' h
  · intro Dyn Desc env ps rest m ps' h
    rw [parse_notify_eq] at h
    split at h
    next e heq => simp at h
    next mn dobj heq =>
      rw [Prod.mk.injEq] at h
      obtain ⟨h1, h2⟩ := h
      rw [Except.ok.injEq] at h1
      rw [← h1]
  · intro Dyn Desc env ps buf e ps' h
    exact parse_err_total env ps buf e ps' h

/-- Witness for C9: the notify scenario assigns identifier 0 = the fresh
counter and bumps it to 1; a rejected frame leaves the counter at 0. -/
theorem C9_witness :
    ({ psB with total := 1 } : Parser String).total = psB.total + 1
    ∧ notifyMsgB.id = psB.total
    ∧ psTriv.total = psTriv.total := by
  refine ⟨?_, ?_, ?_⟩
  · exact C9_counter_behaviour.1 JsonValue String envB psB notifyFrameB notifyMsgB
      { psB with total := 1 } evalNotifyB
  · exact C9_counter_behaviour.2.1 JsonValue String envB psB
      (encodeTwoBlocks 10 18 nameBytesB [5]) notifyMsgB { psB with total := 1 } evalNotifyB
  · exact C9_counter_behaviour.2.2 Unit Unit envTriv psTriv [5]
      (.err ("Invalid message type: 5")) psTriv rfl

/-- Claim C10: when a decoded Notify payload carries a data field whose value
is not a string alongside a name field that is a string, decode reports no
error for the field's type: it treats the value as the empty string,
base64-decodes and deobfuscates zero bytes, decodes the empty buffer against
the action's schema, and replaces the data field with the resulting
structured value. -/
theorem C10_notify_nonstring_data :
    ∀ (Dyn Desc : Type) (env : Libs Dyn Desc) (ps : Parser Desc)
      (rest method data : List Nat) (method_name action_name : String)
      (message_type action_type : Desc) (dm am : Dyn)
      (fields : List (String × JsonValue)) (j aobj : JsonValue),
      buf_to_blocks rest = .ok (method, data) →
      utf8Decode method = some method_name →
      2 < (splitChar dotChar method_name).length →
      ps.pool (to_fqn ((splitChar dotChar method_name).getD 2 "")) = some message_type →
      env.decodeDyn message_type data = .ok dm →
      env.my_serialize dm = .ok (JsonValue.obj fields) →
      lookupField fields "data" = some j →
      j.as_str = none →
      lookupField fields "name" = some (.str action_name) →
      env.base64_decode "" = .ok [] →
      ps.pool (to_fqn action_name) = some action_type →
      env.decodeDyn action_type (decode []) = .ok am →
      env.my_serialize am = .ok aobj →
      parse env ps (1 :: rest)
        = (.ok { id := ps.total, msg_type := .Notify, method_name := method_name,
                 data := .obj (insertField fields "data" aobj) },
           { ps with total := ps.total + 1 }) := by
  intro Dyn Desc env ps rest method data method_name action_name message_type action_type
    dm am fields j aobj hblk hutf hlen hpoolM hdm hser hlookD hjs hlookN hb64 hapool hadec haser
  have hcore : parseNotifyCore env ps (1 :: rest)
      = .ok (method_name, .obj (insertField fields "data" aobj)) := by
    simp only [parseNotifyCore, List.drop_succ_cons, List.drop_zero, hblk, hutf,
      if_pos hlen, hpoolM, hdm, hser, JsonValue.getKey, hlookD, hlookN, as_str_str,
      hjs, Option.getD_none, hb64, hapool, hadec, haser, JsonValue.objInsert]
  rw [parse_notify_eq, hcore]

/-- Witness for C10: the concrete Notify scenario in which the outer message
decodes to an object with a numeric data field and name ActionX; the result
replaces data with the value decoded from the empty buffer. -/
theorem C10_witness :
    parse envB psB notifyFrameB
      = (.ok { id := 0, msg_type := .Notify, method_name := "a.b.Outer",
               data := .obj [("name", .str "ActionX"), ("data", .obj [("len", .num 0)])] },
         { psB with total := 1 }) :=
  C10_notify_nonstring_data JsonValue String envB psB
    (encodeTwoBlocks 10 18 nameBytesB [5]) nameBytesB [5] "a.b.Outer" "ActionX"
    "lq.Outer" "lq.ActionX"
    (JsonValue.obj [("name", JsonValue.str "ActionX"), ("data", JsonValue.num 5)])
    (JsonValue.obj [("len", JsonValue.num 0)])
    [("name", JsonValue.str "ActionX"), ("data", JsonValue.num 5)]
    (JsonValue.num 5) (JsonValue.obj [("len", JsonValue.num 0)])
    blocksB rfl (by decide) rfl rfl rfl rfl rfl rfl rfl rfl rfl rfl

end Liqi
